import Mathlib

/-!
# Collectible marketplace — shallow embedding and verification

Shallow embedding of `src/src/lib.rs`, the Scrypto blueprint `Collectible`:
a marketplace that mints collectible NFTs, issues claim certificates
("collectible proofs") against their sale proceeds, sells items, and pays
certificate holders after a sale.

Modelling decisions, all read off the source:

* Scrypto `Decimal` is a signed fixed-point number with 18 decimal places.
  Every amount appearing in this development (prices such as 100, the fee
  rate `0.025`, payments) is exactly representable, and no claim concerns
  rounding at the 18th decimal, so `Decimal` is modelled as `ℚ`.
* `NonFungibleId` is modelled as `Nat`.  `NonFungibleId::random()` is
  nondeterministic; each operation that mints takes the generated id as an
  explicit parameter.  `mint_non_fungible` aborts when the id already
  exists on the resource; the model checks the corresponding ledger.
* A Scrypto `HashMap` is modelled as an association list with
  `HashMap::insert` (replace-on-collision) semantics.
* Vaults of fungible XRD are balances in `ℚ`; the vault of collectible
  NFTs is the list of ids it holds.  The per-resource data kept by the
  Radix resource managers (`get_non_fungible_data` / `update_data` /
  `burn`) is modelled as two ledgers, one for the NFTs and one for the
  proofs.
* Every `assert!`, failed `Bucket::take`, failed `Vault::take`, failed
  `take_non_fungible`, failed data lookup and duplicate mint aborts the
  whole Radix transaction and rolls back every prior effect; each public
  method is therefore modelled as `Except CErr (result × state)`, where an
  `error` outcome leaves no new state at all.
* A `Bucket`/`Proof` of a non-fungible can only be presented while that
  non-fungible exists; after `burn` it cannot.  `redeem` receives the
  certificate *by bucket*, so the model guards its entry on the proof
  still existing in the proof ledger (`nonexistentResource` otherwise).
-/

/-- Status of a collectible NFT (source: `CollectibleStatus`). -/
inductive CollectibleStatus where
  | Available
  | Sold
deriving DecidableEq, Repr

/-- Non-fungible data of a collectible NFT (source: `CollectibleNft`). -/
structure CollectibleNft where
  name : String
  description : String
  image_url : String
  price : ℚ
  status : CollectibleStatus
deriving DecidableEq, Repr

/-- Non-fungible data of a claim certificate (source: `CollectibleProof`). -/
structure CollectibleProof where
  collectible_nft_id : Nat
  claimable_xrd : ℚ
deriving DecidableEq, Repr

/-- Non-fungible data of a membership badge (source: `CollectibleMember`). -/
structure CollectibleMember where
  username : String
  avatar : String
deriving DecidableEq, Repr

/-- `HashMap::insert` on an association list: replaces any binding of `k`. -/
def mapInsert {α : Type} (k : Nat) (v : α) (m : List (Nat × α)) : List (Nat × α) :=
  (k, v) :: m.filter (fun p => p.1 != k)

/-- Removal of a non-fungible from a resource ledger (effect of `burn`). -/
def mapErase {α : Type} (k : Nat) (m : List (Nat × α)) : List (Nat × α) :=
  m.filter (fun p => p.1 != k)

/-- Component state of the `Collectible` blueprint (source: `struct Collectible`),
together with the non-fungible data held by the three resource managers.
`collected_xrd` and `claimable_xrd` are the two treasury vault balances;
`collectible_fee` is fixed at instantiation. -/
structure Collectible where
  /-- `collectible_proofs`: proof id → nft id, the claim ledger. -/
  collectible_proofs : List (Nat × Nat)
  /-- `collectible_members`: member badge id → username. -/
  collectible_members : List (Nat × String)
  /-- Balance of the `collected_xrd` vault (fees / "payments received"). -/
  collected_xrd : ℚ
  /-- Balance of the `claimable_xrd` vault. -/
  claimable_xrd : ℚ
  /-- `collectible_fee`, set to `dec!("0.025")` at instantiation. -/
  collectible_fee : ℚ
  /-- Resource-manager data of all existing collectible NFTs. -/
  nft_ledger : List (Nat × CollectibleNft)
  /-- Resource-manager data of all existing (unburned) collectible proofs. -/
  proof_ledger : List (Nat × CollectibleProof)
  /-- Resource-manager data of all existing membership badges. -/
  member_ledger : List (Nat × CollectibleMember)
  /-- Ids of the NFTs held in the `collectible_nfts` vault. -/
  nft_vault : List Nat
deriving DecidableEq, Repr

/-- Abort causes.  The source has no error enum: every failure is a Radix
runtime abort.  Constructors name the aborting primitive:
`invalidBadge` — the `assert!(..., "Invalid badge provided")` checks;
`notFound` — `get_non_fungible_data` on an id absent from the resource;
`insufficientPayment` — `Bucket::take` on a bucket holding less than the
requested amount (the spec's §7 taxonomy: "funds bucket short of required
amount");
`vaultShort` — `Vault::take` on a vault holding less than requested;
`nftMissingFromVault` — `Vault::take_non_fungible` on an id the vault
does not hold;
`idAlreadyExists` — `mint_non_fungible` with an id already minted;
`nonexistentResource` — a call presenting a bucket of a non-fungible that
no longer exists (e.g. a burned proof). -/
inductive CErr where
  | invalidBadge
  | notFound
  | insufficientPayment
  | vaultShort
  | nftMissingFromVault
  | idAlreadyExists
  | nonexistentResource
deriving DecidableEq, Repr

/-- `instantiate_component` (lines 57–94): empty stores, empty vaults, fee
`dec!("0.025") = 1/40`. -/
def instantiate_component : Collectible :=
  { collectible_proofs := []
    collectible_members := []
    collected_xrd := 0
    claimable_xrd := 0
    collectible_fee := 25/1000
    nft_ledger := []
    proof_ledger := []
    member_ledger := []
    nft_vault := [] }

/-- `create_account` (lines 102–116): mint a membership badge with a fresh
random id (`fresh_badge_id` models `NonFungibleId::random()`), record
id → username in `collectible_members`, return the badge.  There is no
check of any kind on `username` or `avatar`. -/
def create_account (s : Collectible) (fresh_badge_id : Nat)
    (username avatar : String) : Except CErr (Nat × Collectible) :=
  if (s.member_ledger.lookup fresh_badge_id).isSome then .error .idAlreadyExists
  else .ok (fresh_badge_id,
    { s with
      member_ledger :=
        mapInsert fresh_badge_id ⟨username, avatar⟩ s.member_ledger
      collectible_members :=
        mapInsert fresh_badge_id username s.collectible_members })

/-- `mint_collectible_nft` (lines 128–172): mint an NFT with the given data
and `status: Available`, mint a proof with `claimable_xrd = price`, record
proof id → nft id in `collectible_proofs`, store the NFT in the vault and
return the proof.  `member_proof_id` models the
`collectible_member_resource_address: Proof` argument, which the source
marks `#[allow(unused_variables)]` and never reads; `price` is not
validated.  `nft_fresh_id` and `proof_fresh_id` model the two
`NonFungibleId::random()` calls. -/
def mint_collectible_nft (s : Collectible)
    (nft_fresh_id proof_fresh_id member_proof_id : Nat)
    (name description image_url : String) (price : ℚ) :
    Except CErr (Nat × Collectible) :=
  if (s.nft_ledger.lookup nft_fresh_id).isSome then .error .idAlreadyExists
  else if (s.proof_ledger.lookup proof_fresh_id).isSome then .error .idAlreadyExists
  else .ok (proof_fresh_id,
    { s with
      nft_ledger :=
        mapInsert nft_fresh_id
          ⟨name, description, image_url, price, .Available⟩ s.nft_ledger
      proof_ledger :=
        mapInsert proof_fresh_id ⟨nft_fresh_id, price⟩ s.proof_ledger
      collectible_proofs :=
        mapInsert proof_fresh_id nft_fresh_id s.collectible_proofs
      nft_vault := nft_fresh_id :: s.nft_vault })

/-- Result of `redeem_funds_for_collectible_nft`: either a bucket of funds
or the unredeemed certificate handed back. -/
inductive RedeemResult where
  | funds (amount : ℚ)
  | certificate (proof_id : Nat)
deriving DecidableEq, Repr

/-- `redeem_funds_for_collectible_nft` (lines 179–211): take the
certificate's id from the presented bucket, `assert!` the claim ledger
contains it, read the referenced NFT's data; if `Sold`, burn the
certificate and return `collected_xrd.take(nft_data.price)` — note: the
source takes the NFT's `price` from the `collected_xrd` vault, it does not
touch `claimable_xrd`, does not read the certificate's recorded
`claimable_xrd`, and does not remove the `collectible_proofs` entry; if
`Available`, hand the certificate back unchanged. -/
def redeem_funds_for_collectible_nft (s : Collectible) (proof_id : Nat) :
    Except CErr (RedeemResult × Collectible) :=
  match s.proof_ledger.lookup proof_id with
  | none => .error .nonexistentResource
  | some _ =>
    match s.collectible_proofs.lookup proof_id with
    | none => .error .invalidBadge
    | some collectible_nft_id =>
      match s.nft_ledger.lookup collectible_nft_id with
      | none => .error .notFound
      | some nft_data =>
        match nft_data.status with
        | .Sold =>
          if s.collected_xrd < nft_data.price then .error .vaultShort
          else .ok (.funds nft_data.price,
            { s with
              proof_ledger := mapErase proof_id s.proof_ledger
              collected_xrd := s.collected_xrd - nft_data.price })
        | .Available => .ok (.certificate proof_id, s)

/-- `buy_collectible_nft` (lines 221–261): `assert!` the presented member
badge is in `collectible_members`; read the NFT's data (no status check of
any kind); take `collectible_fee * price` from the payment bucket into
`collected_xrd`; take the full `price` from the payment bucket into
`claimable_xrd`; set the status to `Sold`, take the NFT out of the
component vault, write the updated data back, and return the NFT together
with the remaining payment as change. -/
def buy_collectible_nft (s : Collectible) (member_proof_id nft_id : Nat)
    (payment : ℚ) : Except CErr ((Nat × ℚ) × Collectible) :=
  match s.collectible_members.lookup member_proof_id with
  | none => .error .invalidBadge
  | some _ =>
    match s.nft_ledger.lookup nft_id with
    | none => .error .notFound
    | some nft_data =>
      let transaction_fee : ℚ := s.collectible_fee * nft_data.price
      if payment < transaction_fee then .error .insufficientPayment
      else
        let claimable_amount : ℚ := nft_data.price
        if payment - transaction_fee < claimable_amount then
          .error .insufficientPayment
        else if s.nft_vault.contains nft_id then
          .ok ((nft_id, payment - transaction_fee - claimable_amount),
            { s with
              collected_xrd := s.collected_xrd + transaction_fee
              claimable_xrd := s.claimable_xrd + claimable_amount
              nft_ledger :=
                mapInsert nft_id { nft_data with status := .Sold } s.nft_ledger
              nft_vault := s.nft_vault.erase nft_id })
        else .error .nftMissingFromVault

/-! ## Concrete scenario states

The chain below follows the spec's §8 scenario (mint an item priced 100,
buy it, redeem the certificate), instantiated with concrete ids:
member badge id 0, NFT id 1, certificate (proof) id 7.  Each state is
written out literally and proved equal to the result of the preceding
operation, so every state is reachable from `instantiate_component`. -/

/-- State after `create_account` with fresh badge id 0. -/
def accountState : Collectible :=
  { collectible_proofs := []
    collectible_members := [(0, "plymth")]
    collected_xrd := 0
    claimable_xrd := 0
    collectible_fee := 25/1000
    nft_ledger := []
    proof_ledger := []
    member_ledger := [(0, ⟨"plymth", "avatar"⟩)]
    nft_vault := [] }

/-- State after additionally minting NFT 1 (price 100, certificate 7). -/
def mintedState : Collectible :=
  { accountState with
    nft_ledger := [(1, ⟨"Mona", "painting", "mona.png", 100, .Available⟩)]
    proof_ledger := [(7, ⟨1, 100⟩)]
    collectible_proofs := [(7, 1)]
    nft_vault := [1] }

/-- State after additionally buying NFT 1 with a payment of 102.5. -/
def purchasedState : Collectible :=
  { mintedState with
    collected_xrd := 5/2
    claimable_xrd := 100
    nft_ledger := [(1, ⟨"Mona", "painting", "mona.png", 100, .Sold⟩)]
    nft_vault := [] }

/-- The scenario chain is reachable: register, then mint, then buy.
The purchase requires a payment of 102.5 = 1.025 × 100 (fee 2.5 plus the
full price 100) and returns change 0. -/
theorem scenario_chain :
    create_account instantiate_component 0 "plymth" "avatar"
      = .ok (0, accountState) ∧
    mint_collectible_nft accountState 1 7 0 "Mona" "painting" "mona.png" 100
      = .ok (7, mintedState) ∧
    buy_collectible_nft mintedState 0 1 (205/2)
      = .ok ((1, 0), purchasedState) := by
  refine ⟨rfl, rfl, ?_⟩
  norm_num [buy_collectible_nft, mapInsert, mintedState, accountState,
    purchasedState, List.lookup, List.filter, List.erase]

/-! ## Association-list lemmas -/

/-- Filtering out key `k` does not change lookups of other keys. -/
theorem lookup_filter_ne {α : Type} (k k' : Nat) (m : List (Nat × α))
    (h : k' ≠ k) :
    (m.filter (fun p => p.1 != k)).lookup k' = m.lookup k' := by
  induction m with
  | nil => rfl
  | cons a t ih =>
    obtain ⟨ak, av⟩ := a
    rw [List.filter_cons]
    by_cases ha : ak = k
    · subst ha
      simp [ih, List.lookup_cons, show (k' == ak) = false by simpa using h]
    · simp only [show (ak != k) = true by simpa using ha, if_true,
        List.lookup_cons]
      by_cases hk : k' = ak
      · simp [hk]
      · simp only [show (k' == ak) = false by simpa using hk]
        exact ih

/-- Looking up the freshly inserted key returns the inserted value. -/
theorem lookup_mapInsert_self {α : Type} (k : Nat) (v : α) (m : List (Nat × α)) :
    (mapInsert k v m).lookup k = some v := by
  rw [mapInsert, List.lookup]
  simp

/-- `mapInsert` does not change lookups of other keys. -/
theorem lookup_mapInsert_ne {α : Type} (k k' : Nat) (v : α) (m : List (Nat × α))
    (h : k' ≠ k) :
    (mapInsert k v m).lookup k' = m.lookup k' := by
  rw [mapInsert, List.lookup]
  simp only [show (k' == k) = false by simpa using h]
  exact lookup_filter_ne k k' m h

/-- Filtering out an absent key is the identity. -/
theorem filter_eq_of_lookup_none {α : Type} (k : Nat) (m : List (Nat × α))
    (h : m.lookup k = none) :
    m.filter (fun p => p.1 != k) = m := by
  induction m with
  | nil => rfl
  | cons a t ih =>
    rw [List.lookup] at h
    by_cases hk : k = a.1
    · simp [hk] at h
    · simp only [show (k == a.1) = false by simpa using hk] at h
      have ha : (a.1 != k) = true := by
        simp only [bne_iff_ne]
        exact fun hc => hk hc.symm
      simp only [List.filter, ha, ih h]

/-- Inserting a fresh key grows the list by exactly one entry. -/
theorem length_mapInsert_fresh {α : Type} (k : Nat) (v : α) (m : List (Nat × α))
    (h : m.lookup k = none) :
    (mapInsert k v m).length = m.length + 1 := by
  rw [mapInsert, filter_eq_of_lookup_none k m h, List.length_cons]

/-- Looking up an erased key returns nothing. -/
theorem lookup_mapErase_self {α : Type} (k : Nat) (m : List (Nat × α)) :
    (mapErase k m).lookup k = none := by
  induction m with
  | nil => rfl
  | cons a t ih =>
    by_cases ha : a.1 = k
    · subst ha
      simpa [mapErase, List.filter] using ih
    · have : (a.1 != k) = true := by simpa using ha
      rw [mapErase] at ih ⊢
      simp only [List.filter, this]
      rw [List.lookup]
      simp only [show (k == a.1) = false by simpa using fun hc => ha hc.symm]
      exact ih

/-! ## Claims -/

/-- C1 (counterexample): the fee/proceeds split claimed by the spec does
not match the code.  In the reachable state `mintedState` (item 1 listed
at price 100, fee rate 0.025): a purchase with payment = price = 100
aborts (the payment bucket is short, because the code takes the fee AND
the full price); a successful purchase needs payment 102.5, and then the
claimable pool increases by the full 100 — not by `price − fee = 97.5` —
and the two pools together increase by 102.5, not by the price. -/
theorem C1_counterexample :
    buy_collectible_nft mintedState 0 1 100 = .error .insufficientPayment ∧
    buy_collectible_nft mintedState 0 1 (205/2) = .ok ((1, 0), purchasedState) ∧
    purchasedState.claimable_xrd - mintedState.claimable_xrd = 100 ∧
    ((100 : ℚ) ≠ 100 - 25/1000 * 100) ∧
    purchasedState.collected_xrd + purchasedState.claimable_xrd
        - (mintedState.collected_xrd + mintedState.claimable_xrd) = 205/2 ∧
    ((205/2 : ℚ) ≠ 100) := by
  refine ⟨?_, ?_, by norm_num [purchasedState, mintedState, accountState],
    by norm_num, by norm_num [purchasedState, mintedState, accountState],
    by norm_num⟩ <;>
  norm_num [buy_collectible_nft, mapInsert, mintedState, accountState,
    purchasedState, List.lookup, List.filter, List.erase]

/-- C1 (amended): for every successful purchase of an item with listed
price `p`, `collected_xrd` increases by exactly `0.025 × p`,
`claimable_xrd` increases by exactly the full `p`, their combined
increase is `0.025 × p + p` (the buyer pays the fee on top of the price),
and the change returned is `payment − 0.025 × p − p` (zero exactly when
`payment = 1.025 × p`). -/
theorem C1_amended (s s' : Collectible) (m nid rid : Nat) (payment change : ℚ)
    (d : CollectibleNft)
    (hd : s.nft_ledger.lookup nid = some d)
    (hok : buy_collectible_nft s m nid payment = .ok ((rid, change), s')) :
    s'.collected_xrd = s.collected_xrd + s.collectible_fee * d.price ∧
    s'.claimable_xrd = s.claimable_xrd + d.price ∧
    s'.collected_xrd + s'.claimable_xrd - (s.collected_xrd + s.claimable_xrd)
      = s.collectible_fee * d.price + d.price ∧
    change = payment - s.collectible_fee * d.price - d.price := by
  unfold buy_collectible_nft at hok
  cases hm : s.collectible_members.lookup m with
  | none => rw [hm] at hok; cases hok
  | some u =>
    simp only [hm, hd] at hok
    by_cases h1 : payment < s.collectible_fee * d.price
    · rw [if_pos h1] at hok; cases hok
    · rw [if_neg h1] at hok
      by_cases h2 : payment - s.collectible_fee * d.price < d.price
      · rw [if_pos h2] at hok; cases hok
      · rw [if_neg h2] at hok
        by_cases h3 : s.nft_vault.contains nid
        · rw [if_pos h3] at hok
          simp only [Except.ok.injEq, Prod.mk.injEq] at hok
          obtain ⟨⟨hr, hc⟩, hs⟩ := hok
          subst hs
          refine ⟨rfl, rfl, by ring, ?_⟩
          rw [← hc]
        · rw [if_neg h3] at hok; cases hok

/-- C1 witness: the amended theorem applied to the concrete scenario
purchase (price 100, payment 102.5, change 0). -/
theorem C1_amended_witness :
    purchasedState.collected_xrd
        = mintedState.collected_xrd + mintedState.collectible_fee * (100 : ℚ) ∧
    purchasedState.claimable_xrd = mintedState.claimable_xrd + 100 ∧
    purchasedState.collected_xrd + purchasedState.claimable_xrd
        - (mintedState.collected_xrd + mintedState.claimable_xrd)
        = mintedState.collectible_fee * 100 + 100 ∧
    (0 : ℚ) = 205/2 - mintedState.collectible_fee * 100 - 100 :=
  C1_amended mintedState purchasedState 0 1 1 (205/2) 0
    ⟨"Mona", "painting", "mona.png", 100, .Available⟩ rfl
    (by norm_num [buy_collectible_nft, mapInsert, mintedState, accountState,
      purchasedState, List.lookup, List.filter, List.erase])

/-- C2 (code bug): in the reachable state after the scenario purchase,
the certificate records a claimable amount of 100 and `claimable_xrd`
holds exactly those 100, yet redeeming aborts: the code withdraws the
NFT's price from the `collected_xrd` (fee) vault, which only holds the
2.5 fee, and never touches `claimable_xrd`.  The redemption the spec
describes is impossible in this state even though the claimable pool is
fully funded. -/
theorem C2_code_bug :
    redeem_funds_for_collectible_nft purchasedState 7 = .error .vaultShort ∧
    purchasedState.proof_ledger.lookup 7 = some ⟨1, 100⟩ ∧
    purchasedState.claimable_xrd = 100 ∧
    purchasedState.collected_xrd = 5/2 := by
  refine ⟨?_, rfl, rfl, rfl⟩
  norm_num [redeem_funds_for_collectible_nft, purchasedState, mintedState,
    accountState, List.lookup]

/-! For C3 a redemption must actually succeed, which (because of the bug
recorded at C2) needs `collected_xrd` to hold at least the redeemed NFT's
price.  Reachable route: after the first sale, mint and sell a second,
much more expensive item, so that its fee alone funds the first
certificate's redemption. -/

/-- State after additionally minting NFT 2 (price 4000, certificate 8). -/
def secondMintedState : Collectible :=
  { purchasedState with
    nft_ledger := [(2, ⟨"Tulip", "flower", "tulip.png", 4000, .Available⟩),
                   (1, ⟨"Mona", "painting", "mona.png", 100, .Sold⟩)]
    proof_ledger := [(8, ⟨2, 4000⟩), (7, ⟨1, 100⟩)]
    collectible_proofs := [(8, 2), (7, 1)]
    nft_vault := [2] }

/-- State after additionally buying NFT 2 with a payment of 4100. -/
def twoSoldState : Collectible :=
  { secondMintedState with
    collected_xrd := 205/2
    claimable_xrd := 4100
    nft_ledger := [(2, ⟨"Tulip", "flower", "tulip.png", 4000, .Sold⟩),
                   (1, ⟨"Mona", "painting", "mona.png", 100, .Sold⟩)]
    nft_vault := [] }

/-- State after additionally redeeming certificate 7 (item 1, Sold). -/
def redeemedState : Collectible :=
  { twoSoldState with
    proof_ledger := [(8, ⟨2, 4000⟩)]
    collected_xrd := 5/2 }

/-- The second sale is reachable from `purchasedState`. -/
theorem scenario_chain2 :
    mint_collectible_nft purchasedState 2 8 0 "Tulip" "flower" "tulip.png" 4000
      = .ok (8, secondMintedState) ∧
    buy_collectible_nft secondMintedState 0 2 4100 = .ok ((2, 0), twoSoldState) := by
  constructor
  · rfl
  · norm_num [buy_collectible_nft, mapInsert, secondMintedState, purchasedState,
      mintedState, accountState, twoSoldState, List.lookup, List.filter,
      List.erase]
    rfl

/-- C3 (counterexample): in the reachable state `twoSoldState`,
redeeming certificate 7 (item 1 is Sold) succeeds and pays out — yet the
resulting state still maps certificate id 7 to item 1 in
`collectible_proofs`: the code never removes the claim-ledger entry, so
the claimed mechanism (entry removal causing `UnknownCertificate` on a
second attempt) is false. -/
theorem C3_counterexample :
    redeem_funds_for_collectible_nft twoSoldState 7
      = .ok (.funds 100, redeemedState) ∧
    redeemedState.collectible_proofs.lookup 7 = some 1 := by
  constructor
  · simp [redeem_funds_for_collectible_nft, mapErase, twoSoldState,
      secondMintedState, purchasedState, mintedState, accountState,
      redeemedState, List.lookup, List.filter,
      show ¬((205:ℚ)/2 < 100) by norm_num,
      show (205:ℚ)/2 - 100 = 5/2 by norm_num]
  · rfl

/-- C3 (amended): a successful redeem of a certificate for a Sold item
burns the certificate NFT but leaves its claim-ledger entry in
`collectible_proofs` untouched.  A second redeem attempt with the same
certificate id still fails — redemption succeeds at most once — but only
because the burned certificate no longer exists and so cannot be
presented in a bucket, not because the ledger check reports an unknown
certificate. -/
theorem C3_amended (s : Collectible) (pid nid : Nat) (pr : CollectibleProof)
    (d : CollectibleNft)
    (hp : s.proof_ledger.lookup pid = some pr)
    (hmap : s.collectible_proofs.lookup pid = some nid)
    (hd : s.nft_ledger.lookup nid = some d)
    (hst : d.status = .Sold)
    (hbal : d.price ≤ s.collected_xrd) :
    ∃ s', redeem_funds_for_collectible_nft s pid = .ok (.funds d.price, s') ∧
      s'.collectible_proofs = s.collectible_proofs ∧
      s'.proof_ledger.lookup pid = none ∧
      redeem_funds_for_collectible_nft s' pid = .error .nonexistentResource := by
  refine ⟨{ s with
      proof_ledger := mapErase pid s.proof_ledger
      collected_xrd := s.collected_xrd - d.price }, ?_, rfl,
    lookup_mapErase_self pid s.proof_ledger, ?_⟩
  · unfold redeem_funds_for_collectible_nft
    simp only [hp, hmap, hd, hst, if_neg (not_lt.mpr hbal)]
  · unfold redeem_funds_for_collectible_nft
    simp only [lookup_mapErase_self]

/-- C3 witness: the amended theorem applied to the concrete redemption in
`twoSoldState`. -/
theorem C3_amended_witness :
    ∃ s', redeem_funds_for_collectible_nft twoSoldState 7
        = .ok (.funds ((100 : ℚ)), s') ∧
      s'.collectible_proofs = twoSoldState.collectible_proofs ∧
      s'.proof_ledger.lookup 7 = none ∧
      redeem_funds_for_collectible_nft s' 7 = .error .nonexistentResource :=
  C3_amended twoSoldState 7 1 ⟨1, 100⟩
    ⟨"Mona", "painting", "mona.png", 100, .Sold⟩ rfl rfl rfl rfl
    (by norm_num [twoSoldState, secondMintedState, purchasedState,
      mintedState, accountState])

/-- C4 (counterexample): in the reachable state `purchasedState` item 1
is Sold, the buyer is registered and the payment is ample, yet the
purchase fails with `nftMissingFromVault` — the abort comes from
`take_non_fungible` finding no NFT in the component vault.  The code
contains no status check at all, so no status-precondition
(`AlreadySold`) failure exists; the spec's claimed error is never
produced. -/
theorem C4_counterexample :
    buy_collectible_nft purchasedState 0 1 1000 = .error .nftMissingFromVault := by
  norm_num [buy_collectible_nft, purchasedState, mintedState, accountState,
    List.lookup]

/-- C4 (amended): `buy_collectible_nft` never inspects the item's status.
A purchase of a Sold item (whose NFT has left the component vault, as
every sale ensures) with a registered buyer and sufficient payment fails
with the vault resource-missing abort, not an `AlreadySold` error; a
purchase with an unknown item id aborts at the data lookup
(`notFound`). -/
theorem C4_amended :
    (∀ (s : Collectible) (m nid : Nat) (payment : ℚ) (u : String)
       (d : CollectibleNft),
      s.collectible_members.lookup m = some u →
      s.nft_ledger.lookup nid = some d →
      d.status = .Sold →
      s.nft_vault.contains nid = false →
      s.collectible_fee * d.price ≤ payment →
      d.price ≤ payment - s.collectible_fee * d.price →
      buy_collectible_nft s m nid payment = .error .nftMissingFromVault) ∧
    (∀ (s : Collectible) (m nid : Nat) (payment : ℚ) (u : String),
      s.collectible_members.lookup m = some u →
      s.nft_ledger.lookup nid = none →
      buy_collectible_nft s m nid payment = .error .notFound) := by
  constructor
  · intro s m nid payment u d hm hd hst hv h1 h2
    unfold buy_collectible_nft
    simp only [hm, hd, if_neg (not_lt.mpr h1), if_neg (not_lt.mpr h2), hv]
    simp
  · intro s m nid payment u hm hd
    unfold buy_collectible_nft
    simp only [hm, hd]

/-- C4 witness: both parts of the amended theorem at concrete inputs —
buying the already-sold item 1 in `purchasedState`, and buying the
unknown item id 42 in `mintedState`. -/
theorem C4_amended_witness :
    buy_collectible_nft purchasedState 0 1 (205/2)
        = .error .nftMissingFromVault ∧
    buy_collectible_nft mintedState 0 42 (205/2) = .error .notFound :=
  ⟨C4_amended.1 purchasedState 0 1 (205/2) "plymth"
      ⟨"Mona", "painting", "mona.png", 100, .Sold⟩ rfl rfl rfl rfl
      (by norm_num [purchasedState, mintedState, accountState])
      (by norm_num [purchasedState, mintedState, accountState]),
   C4_amended.2 mintedState 0 42 (205/2) "plymth" rfl rfl⟩

/-- C5 (confirmed): if the payment bucket holds less than
`fee + claimable` (with the code's claimable amount being the full
price, the required total is `0.025 × price + price`), the purchase
aborts at one of the two `payment.take` calls — the "funds bucket short"
failure the spec's §7 taxonomy names `InsufficientPayment`.  In the
transactional model an `error` outcome produces no successor state at
all: neither pool is credited and the item's ledger entry (hence its
`Available` status) is untouched, exactly the claimed absence of partial
effect. -/
theorem C5_insufficient_payment_atomic (s : Collectible) (m nid : Nat)
    (payment : ℚ) (u : String) (d : CollectibleNft)
    (hm : s.collectible_members.lookup m = some u)
    (hd : s.nft_ledger.lookup nid = some d)
    (hlt : payment < s.collectible_fee * d.price + d.price) :
    buy_collectible_nft s m nid payment = .error .insufficientPayment := by
  unfold buy_collectible_nft
  simp only [hm, hd]
  by_cases h1 : payment < s.collectible_fee * d.price
  · rw [if_pos h1]
  · rw [if_neg h1, if_pos (by linarith)]

/-- C5 witness: buying the price-100 item with only its listed price 100
(less than the required 102.5) aborts with the short-bucket failure. -/
theorem C5_insufficient_payment_atomic_witness :
    buy_collectible_nft mintedState 0 1 100 = .error .insufficientPayment :=
  C5_insufficient_payment_atomic mintedState 0 1 100 "plymth"
    ⟨"Mona", "painting", "mona.png", 100, .Available⟩ rfl rfl
    (by norm_num [mintedState, accountState])

/-- C6 (counterexample): `mint_collectible_nft` is not gated by the
Identity Registry.  In `accountState` the only registered member id is 0;
presenting the unregistered membership proof id 999 still mints
successfully (the proof argument is ignored by the code). -/
theorem C6_counterexample :
    accountState.collectible_members.lookup 999 = none ∧
    mint_collectible_nft accountState 1 7 999 "Mona" "painting" "mona.png" 100
      = .ok (7, mintedState) :=
  ⟨rfl, rfl⟩

/-- C6 (amended): only `buy_collectible_nft` is gated by the member
table — an unregistered buyer always aborts at the badge `assert!` — while
`mint_collectible_nft` ignores its membership-proof argument entirely:
its result is identical for any two proof ids, registered or not. -/
theorem C6_amended :
    (∀ (s : Collectible) (m nid : Nat) (payment : ℚ),
      s.collectible_members.lookup m = none →
      buy_collectible_nft s m nid payment = .error .invalidBadge) ∧
    (∀ (s : Collectible) (nf pf p₁ p₂ : Nat) (nm ds img : String) (price : ℚ),
      mint_collectible_nft s nf pf p₁ nm ds img price
        = mint_collectible_nft s nf pf p₂ nm ds img price) := by
  constructor
  · intro s m nid payment hm
    unfold buy_collectible_nft
    simp only [hm]
  · intro s nf pf p₁ p₂ nm ds img price
    rfl

/-- C6 witness: an unregistered buyer (empty member table) is rejected,
and minting gives the same result under two different proof ids. -/
theorem C6_amended_witness :
    buy_collectible_nft instantiate_component 0 1 100 = .error .invalidBadge ∧
    mint_collectible_nft accountState 1 7 5 "a" "b" "c" 2
      = mint_collectible_nft accountState 1 7 6 "a" "b" "c" 2 :=
  ⟨C6_amended.1 instantiate_component 0 1 100 rfl,
   C6_amended.2 accountState 1 7 5 6 "a" "b" "c" 2⟩

/-- C7 (counterexample): minting with the negative price −1 succeeds —
the item and its certificate (with claimable amount −1) are created.  The
code contains no price validation, so no negative price is ever
rejected. -/
theorem C7_counterexample :
    mint_collectible_nft accountState 1 7 0 "Mona" "painting" "mona.png" (-1)
      = .ok (7, { accountState with
          nft_ledger := [(1, ⟨"Mona", "painting", "mona.png", -1, .Available⟩)]
          proof_ledger := [(7, ⟨1, -1⟩)]
          collectible_proofs := [(7, 1)]
          nft_vault := [1] }) :=
  rfl

/-- C7 (amended): `mint_collectible_nft` performs no price validation of
any kind: with fresh ids it succeeds for *every* price, negative prices
included, creating the item and the certificate. -/
theorem C7_amended (s : Collectible) (nf pf mp : Nat) (nm ds img : String)
    (price : ℚ)
    (h1 : s.nft_ledger.lookup nf = none)
    (h2 : s.proof_ledger.lookup pf = none) :
    mint_collectible_nft s nf pf mp nm ds img price
      = .ok (pf, { s with
          nft_ledger := mapInsert nf ⟨nm, ds, img, price, .Available⟩ s.nft_ledger
          proof_ledger := mapInsert pf ⟨nf, price⟩ s.proof_ledger
          collectible_proofs := mapInsert pf nf s.collectible_proofs
          nft_vault := nf :: s.nft_vault }) := by
  unfold mint_collectible_nft
  rw [h1, h2]
  simp

/-- C7 witness: the amended theorem at the concrete price −5. -/
theorem C7_amended_witness :
    mint_collectible_nft accountState 1 7 0 "a" "b" "c" (-5)
      = .ok (7, { accountState with
          nft_ledger := mapInsert 1 ⟨"a", "b", "c", -5, .Available⟩
            accountState.nft_ledger
          proof_ledger := mapInsert 7 ⟨1, -5⟩ accountState.proof_ledger
          collectible_proofs := mapInsert 7 1 accountState.collectible_proofs
          nft_vault := 1 :: accountState.nft_vault }) :=
  C7_amended accountState 1 7 0 "a" "b" "c" (-5) rfl rfl

/-- C8 (confirmed): with fresh random ids, `mint_collectible_nft`
atomically creates exactly one Item with status `Available` and listed
price `price`, exactly one paired certificate whose recorded claimable
amount equals that price and which references the new item, and inserts
exactly one certificate-id → item-id entry into the claim ledger (the new
entry is present, every other key is untouched, and the ledger grows by
exactly one entry), while the new NFT alone joins the component vault —
the 1:1 item/certificate pairing is preserved. -/
theorem C8_mint_one_item_one_certificate (s : Collectible) (nf pf mp : Nat)
    (nm ds img : String) (price : ℚ)
    (h1 : s.nft_ledger.lookup nf = none)
    (h2 : s.proof_ledger.lookup pf = none)
    (h3 : s.collectible_proofs.lookup pf = none) :
    ∃ s', mint_collectible_nft s nf pf mp nm ds img price = .ok (pf, s') ∧
      s'.nft_ledger.lookup nf = some ⟨nm, ds, img, price, .Available⟩ ∧
      (∀ k, k ≠ nf → s'.nft_ledger.lookup k = s.nft_ledger.lookup k) ∧
      s'.nft_ledger.length = s.nft_ledger.length + 1 ∧
      s'.proof_ledger.lookup pf = some ⟨nf, price⟩ ∧
      (∀ k, k ≠ pf → s'.proof_ledger.lookup k = s.proof_ledger.lookup k) ∧
      s'.proof_ledger.length = s.proof_ledger.length + 1 ∧
      s'.collectible_proofs.lookup pf = some nf ∧
      (∀ k, k ≠ pf →
        s'.collectible_proofs.lookup k = s.collectible_proofs.lookup k) ∧
      s'.collectible_proofs.length = s.collectible_proofs.length + 1 ∧
      s'.nft_vault = nf :: s.nft_vault := by
  refine ⟨{ s with
      nft_ledger := mapInsert nf ⟨nm, ds, img, price, .Available⟩ s.nft_ledger
      proof_ledger := mapInsert pf ⟨nf, price⟩ s.proof_ledger
      collectible_proofs := mapInsert pf nf s.collectible_proofs
      nft_vault := nf :: s.nft_vault }, ?_,
    lookup_mapInsert_self nf _ s.nft_ledger,
    fun k hk => lookup_mapInsert_ne nf k _ s.nft_ledger hk,
    length_mapInsert_fresh nf _ s.nft_ledger h1,
    lookup_mapInsert_self pf _ s.proof_ledger,
    fun k hk => lookup_mapInsert_ne pf k _ s.proof_ledger hk,
    length_mapInsert_fresh pf _ s.proof_ledger h2,
    lookup_mapInsert_self pf _ s.collectible_proofs,
    fun k hk => lookup_mapInsert_ne pf k _ s.collectible_proofs hk,
    length_mapInsert_fresh pf _ s.collectible_proofs h3, rfl⟩
  unfold mint_collectible_nft
  rw [h1, h2]
  simp

/-- C8 witness: the mint of the scenario (item 1, certificate 7, price
100) in `accountState`. -/
theorem C8_mint_one_item_one_certificate_witness :
    ∃ s', mint_collectible_nft accountState 1 7 0 "Mona" "painting"
          "mona.png" 100 = .ok (7, s') ∧
      s'.nft_ledger.lookup 1
          = some ⟨"Mona", "painting", "mona.png", (100 : ℚ),
              CollectibleStatus.Available⟩ ∧
      (∀ k, k ≠ 1 → s'.nft_ledger.lookup k = accountState.nft_ledger.lookup k) ∧
      s'.nft_ledger.length = accountState.nft_ledger.length + 1 ∧
      s'.proof_ledger.lookup 7 = some ⟨1, (100 : ℚ)⟩ ∧
      (∀ k, k ≠ 7 →
        s'.proof_ledger.lookup k = accountState.proof_ledger.lookup k) ∧
      s'.proof_ledger.length = accountState.proof_ledger.length + 1 ∧
      s'.collectible_proofs.lookup 7 = some 1 ∧
      (∀ k, k ≠ 7 →
        s'.collectible_proofs.lookup k
          = accountState.collectible_proofs.lookup k) ∧
      s'.collectible_proofs.length = accountState.collectible_proofs.length + 1 ∧
      s'.nft_vault = 1 :: accountState.nft_vault :=
  C8_mint_one_item_one_certificate accountState 1 7 0 "Mona" "painting"
    "mona.png" 100 rfl rfl rfl

/-- C9 (confirmed): redeeming a certificate whose referenced item is
still `Available` returns that same certificate and the *identical*
component state: both treasury balances, the item store, the claim ledger
and every other field are exactly as before — a no-op, not an error. -/
theorem C9_redeem_available_noop (s : Collectible) (pid nid : Nat)
    (pr : CollectibleProof) (d : CollectibleNft)
    (hp : s.proof_ledger.lookup pid = some pr)
    (hmap : s.collectible_proofs.lookup pid = some nid)
    (hd : s.nft_ledger.lookup nid = some d)
    (hst : d.status = .Available) :
    redeem_funds_for_collectible_nft s pid = .ok (.certificate pid, s) := by
  unfold redeem_funds_for_collectible_nft
  simp only [hp, hmap, hd, hst]

/-- C9 witness: redeeming certificate 7 in `mintedState` (item 1 still
Available) hands the certificate back and leaves the state untouched. -/
theorem C9_redeem_available_noop_witness :
    redeem_funds_for_collectible_nft mintedState 7
      = .ok (.certificate 7, mintedState) :=
  C9_redeem_available_noop mintedState 7 1 ⟨1, 100⟩
    ⟨"Mona", "painting", "mona.png", 100, .Available⟩ rfl rfl rfl rfl

/-- C10 (confirmed): `create_account` performs no uniqueness check of any
kind: whenever the randomly generated badge id is fresh it succeeds, for
*every* username and avatar, mints the badge and adds exactly one
id → username entry to the member table (the new entry is present, all
other keys are untouched, the table grows by one); and a second
registration with the same username — the same actor registering again —
succeeds just the same. -/
theorem C10_create_account_total (s : Collectible) (id₁ id₂ : Nat)
    (u a₁ a₂ : String)
    (h1 : s.member_ledger.lookup id₁ = none)
    (hm1 : s.collectible_members.lookup id₁ = none)
    (h2 : s.member_ledger.lookup id₂ = none)
    (hne : id₂ ≠ id₁) :
    ∃ s₁, create_account s id₁ u a₁ = .ok (id₁, s₁) ∧
      s₁.collectible_members.lookup id₁ = some u ∧
      (∀ k, k ≠ id₁ →
        s₁.collectible_members.lookup k = s.collectible_members.lookup k) ∧
      s₁.collectible_members.length = s.collectible_members.length + 1 ∧
      ∃ s₂, create_account s₁ id₂ u a₂ = .ok (id₂, s₂) := by
  refine ⟨{ s with
      member_ledger := mapInsert id₁ ⟨u, a₁⟩ s.member_ledger
      collectible_members := mapInsert id₁ u s.collectible_members }, ?_,
    lookup_mapInsert_self id₁ u s.collectible_members,
    fun k hk => lookup_mapInsert_ne id₁ k u s.collectible_members hk,
    length_mapInsert_fresh id₁ u s.collectible_members hm1, ?_⟩
  · unfold create_account
    rw [h1]
    simp
  · unfold create_account
    simp [lookup_mapInsert_ne id₁ id₂ _ s.member_ledger hne, h2]

/-- C10 witness: two registrations with the same username "plymth" under
fresh ids 0 and 5 both succeed on a fresh component. -/
theorem C10_create_account_total_witness :
    ∃ s₁, create_account instantiate_component 0 "plymth" "avatar"
        = .ok (0, s₁) ∧
      s₁.collectible_members.lookup 0 = some "plymth" ∧
      (∀ k, k ≠ 0 → s₁.collectible_members.lookup k
        = instantiate_component.collectible_members.lookup k) ∧
      s₁.collectible_members.length
        = instantiate_component.collectible_members.length + 1 ∧
      ∃ s₂, create_account s₁ 5 "plymth" "avatar2" = .ok (5, s₂) :=
  C10_create_account_total instantiate_component 0 5 "plymth" "avatar"
    "avatar2" rfl rfl rfl (by norm_num)
